import Mathlib

/-!
Verification of the threaded main-loop layer of pyxmpp2
(`pyxmpp/mainloop/threads.py`).

The module is embedded shallowly:

* one iteration of the `while not self._quit` loop of `ReadingThread.run`
  and of `WrittingThread.run` becomes a pure step function from the loop
  state and the collaborator responses observed during that iteration to
  the next state plus a trace of the externally visible calls it makes;
* the exception-capturing thread bodies `IOThread._run` and
  `EventDispatcherThread.run` become functions from the duty outcome to
  the captured-failure slot and the records posted to the failure queue;
* `ThreadPool.stop` becomes a function from the pool state to the trace
  of external effects (handler closes, QUIT signalling, stop requests,
  join calls with the arguments passed) together with either the new pool
  state or the Python exception the call raises.  Python call-arity
  errors are derived from an explicit signature model, since the source
  wraps `threading.Thread.join` behind methods with a *required*
  `timeout` parameter;
* `ThreadPool.loop_iteration` becomes a function on the pending contents
  of the failure queue.

Seconds are modelled as rationals.
-/

namespace PyXmpp

/-- Result of `IOHandler.prepare()` as inspected by `ReadingThread.run`
(threads.py lines 129-135): a `HandlerReady` instance, a `PrepareAgain`
instance carrying an optional `timeout` attribute, or any value of any
other type. -/
inductive PrepareResult where
  | handlerReady : PrepareResult
  | prepareAgain : Option ℚ → PrepareResult
  | otherValue : PrepareResult
deriving DecidableEq, Repr

/-- The local loop variables of `ReadingThread.run` (threads.py lines
120-121): `prepared` and the remembered poll delay `timeout`. -/
structure ReaderState where
  prepared : Bool
  timeout : ℚ
deriving DecidableEq, Repr

/-- The state of the reader loop on entry (threads.py lines 120-121):
`prepared = False`, `timeout = 0.1`. -/
def ReadingThread.initState : ReaderState :=
  { prepared := false, timeout := 1/10 }

/-- The collaborator responses consumed by one iteration of the reader
loop: the value `prepare()` would return, the `is_readable()` flag, the
`fileno()` value, whether the 1-second `select` reports the descriptor
readable, and the value `wait_for_readability()` would return. -/
structure ReaderInputs where
  prepareRet : PrepareResult
  is_readable : Bool
  fileno : Option ℕ
  selectReadable : Bool
  waitResult : Bool
deriving DecidableEq, Repr

/-- Externally visible calls made during one reader iteration. -/
inductive ReaderAction where
  | callPrepare : ReaderAction
  | selectRead : ℕ → ℚ → ReaderAction
  | handle_read : ReaderAction
  | sleep : ℚ → ReaderAction
  | wait_for_readability : ReaderAction
deriving DecidableEq, Repr

/-- Outcome of one reader iteration: continue the loop with a new state,
leave the loop by `break`, or abort it by raising `TypeError`
(threads.py line 135). -/
inductive IterOutcome where
  | continueLoop : ReaderState → IterOutcome
  | breakLoop : ReaderState → IterOutcome
  | raiseTypeError : ReaderState → IterOutcome
deriving DecidableEq, Repr

/-- The loop state carried by an iteration outcome. -/
def IterOutcome.state : IterOutcome → ReaderState
  | IterOutcome.continueLoop s => s
  | IterOutcome.breakLoop s => s
  | IterOutcome.raiseTypeError s => s

/-- Whether the outcome is the `TypeError` raise. -/
def IterOutcome.isRaise : IterOutcome → Bool
  | IterOutcome.raiseTypeError _ => true
  | _ => false

/-- The `if not prepared` block of the reader iteration (threads.py
lines 123-135): `prepare()` is called; `HandlerReady` sets `prepared`,
`PrepareAgain` overwrites the poll delay only when its `timeout`
attribute is not `None`, and any other return value raises `TypeError`
(the `error` result). -/
def ReadingThread.preparePhase (s : ReaderState) (ret : PrepareResult) :
    Except Unit (ReaderState × List ReaderAction) :=
  if s.prepared then Except.ok (s, [])
  else
    match ret with
    | PrepareResult.handlerReady =>
        Except.ok ({ s with prepared := true }, [ReaderAction.callPrepare])
    | PrepareResult.prepareAgain t =>
        Except.ok ({ s with timeout := t.getD s.timeout },
          [ReaderAction.callPrepare])
    | PrepareResult.otherValue => Except.error ()

/-- The `if is_readable / elif not prepared / else` part of the reader
iteration (threads.py lines 136-149), run on the state left by the
preparation block. -/
def ReadingThread.pollPhase (s1 : ReaderState) (inp : ReaderInputs) :
    IterOutcome × List ReaderAction :=
  if inp.is_readable then
    match inp.fileno with
    | some fd =>
        if inp.selectReadable then
          (IterOutcome.continueLoop s1,
            [ReaderAction.selectRead fd 1, ReaderAction.handle_read])
        else
          (IterOutcome.continueLoop s1, [ReaderAction.selectRead fd 1])
    | none => (IterOutcome.continueLoop s1, [])
  else if s1.prepared = false then
    if s1.timeout ≠ 0 then
      (IterOutcome.continueLoop s1, [ReaderAction.sleep s1.timeout])
    else
      (IterOutcome.continueLoop s1, [])
  else
    if inp.waitResult then
      (IterOutcome.continueLoop s1, [ReaderAction.wait_for_readability])
    else
      (IterOutcome.breakLoop s1, [ReaderAction.wait_for_readability])

/-- One iteration of the `while not self._quit` loop of
`ReadingThread.run` (threads.py lines 122-149): the preparation block
followed, when it does not raise, by the readiness-polling block. -/
def ReadingThread.runIter (s : ReaderState) (inp : ReaderInputs) :
    IterOutcome × List ReaderAction :=
  match ReadingThread.preparePhase s inp.prepareRet with
  | Except.error _ => (IterOutcome.raiseTypeError s, [ReaderAction.callPrepare])
  | Except.ok (s1, acts) =>
      let p := ReadingThread.pollPhase s1 inp
      (p.1, acts ++ p.2)

/-- The collaborator responses consumed by one iteration of the writer
loop of `WrittingThread.run`: the `is_writable()` flag, the truthiness
of the handler object (line 168 binds `fileno = self.io_handler`, the
object itself, so line 169 tests the handler's truthiness), whether the
1-second `select` reports writability, and the value
`wait_for_writability()` would return. -/
structure WriterInputs where
  is_writable : Bool
  handlerTruthy : Bool
  selectWritable : Bool
  waitResult : Bool
deriving DecidableEq, Repr

/-- Externally visible calls made during one writer iteration. -/
inductive WriterAction where
  | selectWrite : ℚ → WriterAction
  | handle_read : WriterAction
  | handle_write : WriterAction
  | wait_for_writability : WriterAction
deriving DecidableEq, Repr

/-- Outcome of one writer iteration. -/
inductive WriterOutcome where
  | continueLoop : WriterOutcome
  | breakLoop : WriterOutcome
deriving DecidableEq, Repr

/-- One iteration of the `while not self._quit` loop of
`WrittingThread.run` (threads.py lines 165-177).  When `is_writable()`,
and the handler object is truthy, it performs the bounded (1s) select;
if the select reports writability it calls `handle_read()` (line 172)
and then `handle_write()` (line 173, which runs whether or not the
select reported writability).  When not writable it blocks in
`wait_for_writability()` and a `False` result breaks the loop. -/
def WrittingThread.runIter (inp : WriterInputs) :
    WriterOutcome × List WriterAction :=
  if inp.is_writable then
    if inp.handlerTruthy then
      if inp.selectWritable then
        (WriterOutcome.continueLoop,
          [WriterAction.selectWrite 1, WriterAction.handle_read,
            WriterAction.handle_write])
      else
        (WriterOutcome.continueLoop,
          [WriterAction.selectWrite 1, WriterAction.handle_write])
    else (WriterOutcome.continueLoop, [])
  else
    if inp.waitResult then
      (WriterOutcome.continueLoop, [WriterAction.wait_for_writability])
    else
      (WriterOutcome.breakLoop, [WriterAction.wait_for_writability])

/-- The body of `IOThread._run` (threads.py lines 81-96): it calls
`self.run()`; if that raises, the exception info is stored in
`self.exc_info` and, when an `exc_queue` was supplied at construction,
the pair `(self, exc_info)` is put on the queue.  The wrapper itself
returns normally in every case: the pair returned is the final
`exc_info` slot and the list of records posted to the queue.  `ε` is
the type of captured exception-info values and `tid` identifies the
thread object itself. -/
def IOThread.runWrapper {ε : Type} (tid : ℕ) (duty : Except ε Unit)
    (hasExcQueue : Bool) : Option ε × List (ℕ × ε) :=
  match duty with
  | Except.ok _ => (none, [])
  | Except.error e => (some e, if hasExcQueue then [(tid, e)] else [])

/-- The body of `EventDispatcherThread.run` (threads.py lines 214-229):
identical capture discipline around `self.event_dispatcher.loop()`. -/
def EventDispatcherThread.runWrapper {ε : Type} (tid : ℕ)
    (loopResult : Except ε Unit) (hasExcQueue : Bool) :
    Option ε × List (ℕ × ε) :=
  match loopResult with
  | Except.ok _ => (none, [])
  | Except.error e => (some e, if hasExcQueue then [(tid, e)] else [])

/-- The positional-argument arity of a Python method, `self` excluded:
how many parameters are required and how many carry defaults. -/
structure PySig where
  required : ℕ
  withDefault : ℕ
deriving DecidableEq, Repr

/-- A Python call with `nargs` positional arguments binds iff
`required ≤ nargs ≤ required + withDefault`; otherwise the call raises
`TypeError`. -/
def PySig.accepts (sig : PySig) (nargs : ℕ) : Bool :=
  decide (sig.required ≤ nargs ∧ nargs ≤ sig.required + sig.withDefault)

/-- `def join(self, timeout)` at threads.py line 78: one required
parameter, no default. -/
def IOThread.joinSig : PySig := { required := 1, withDefault := 0 }

/-- `def join(self, timeout)` at threads.py line 211: one required
parameter, no default. -/
def EventDispatcherThread.joinSig : PySig := { required := 1, withDefault := 0 }

/-- Python errors `ThreadPool.stop` can raise. -/
inductive PyError where
  | typeError : PyError
  | attributeError : PyError
deriving DecidableEq, Repr

/-- Abstract view of one worker-thread object as `ThreadPool.stop` sees
it: its identity, the arity of its `join` method, and the time after
the stop request at which the underlying OS thread terminates
(`none` = never). -/
structure WThread where
  tid : ℕ
  joinSig : PySig
  term : Option ℚ
deriving DecidableEq, Repr

/-- `is_alive()` after the thread has been granted `granted` seconds of
join time since the stop request. -/
def WThread.aliveAfter (t : WThread) (granted : ℚ) : Bool :=
  match t.term with
  | none => true
  | some d => decide (granted < d)

/-- The `ThreadPool` attributes `stop` reads and writes: the registered
I/O handlers (by identity), the duty-thread list `io_threads`, and the
dispatcher reference `event_thread` (`none` models Python `None`). -/
structure PoolState where
  io_handlers : List ℕ
  io_threads : List WThread
  event_thread : Option WThread
deriving DecidableEq, Repr

/-- Externally visible effects of `ThreadPool.stop`, in order:
`handler.close()` calls, the `QUIT` sentinel put on the event queue,
`thread.stop()` requests, and `thread.join(...)` calls with the list of
positional arguments passed. -/
inductive StopEvent where
  | closeHandler : ℕ → StopEvent
  | putQUIT : StopEvent
  | requestStop : ℕ → StopEvent
  | joinCall : ℕ → List ℚ → StopEvent
deriving DecidableEq, Repr

/-- Whether a stop event is a `close()` call. -/
def StopEvent.isClose : StopEvent → Bool
  | StopEvent.closeHandler _ => true
  | _ => false

/-- Whether a stop event is a `join(...)` call. -/
def StopEvent.isJoin : StopEvent → Bool
  | StopEvent.joinCall _ _ => true
  | _ => false

/-- A sequence of `thread.join(args...)` calls: each call is checked
against the thread's `join` signature; an arity mismatch raises
`TypeError` at that call and abandons the rest of the loop. -/
def joinSeq : List (WThread × List ℚ) → List StopEvent × Option PyError
  | [] => ([], none)
  | (t, args) :: rest =>
      if t.joinSig.accepts args.length then
        let r := joinSeq rest
        (StopEvent.joinCall t.tid args :: r.1, r.2)
      else ([StopEvent.joinCall t.tid args], some PyError.typeError)

/-- The join part of `ThreadPool.stop` (threads.py lines 280-296),
applied to `threads = io_threads + [event_thread]`.  With
`timeout = None`, each thread gets `thread.join()` with no argument
(line 282).  With a timeout, phase 1 joins every thread with
`(timeout * 0.01) / len(threads)`; the threads still alive after their
phase-1 join are collected, and, if any, phase 2 joins each of them
with `(timeout * 0.99) / len(threads_left)`.  Returns the join-call
trace and the raised error, if any. -/
def ThreadPool.stopJoinPhase (threads : List WThread) :
    Option ℚ → List StopEvent × Option PyError
  | none => joinSeq (threads.map (fun t => (t, ([] : List ℚ))))
  | some tmo =>
      let timeout1 := tmo * (1/100) / (threads.length : ℚ)
      let phase1 := joinSeq (threads.map (fun t => (t, [timeout1])))
      match phase1.2 with
      | some e => (phase1.1, some e)
      | none =>
          let threads_left := threads.filter (fun t => t.aliveAfter timeout1)
          if threads_left.isEmpty then (phase1.1, none)
          else
            let timeout2 := tmo * (99/100) / (threads_left.length : ℚ)
            let phase2 := joinSeq (threads_left.map (fun t => (t, [timeout2])))
            (phase1.1 ++ phase2.1, phase2.2)

/-- `ThreadPool.stop` (threads.py lines 264-298).  In order: close
every registered handler; test `self.event_thread.is_alive()` — when
`event_thread` is `None` this attribute access raises
`AttributeError` — and put `QUIT` when the dispatcher thread is
alive; call `stop()` on every io thread; return if `join` is false;
otherwise run the join phase on `io_threads + [event_thread]` (the
dispatcher object is always truthy, threads.py line 278) and, when it
raised nothing, clear `io_threads` and set `event_thread` to `None`.
The result is the effect trace paired with the new state or the
raised error. -/
def ThreadPool.stop (st : PoolState) (join : Bool) (timeout : Option ℚ) :
    List StopEvent × Except PyError PoolState :=
  let closes := st.io_handlers.map StopEvent.closeHandler
  match st.event_thread with
  | none => (closes, Except.error PyError.attributeError)
  | some et =>
      let quits := if et.aliveAfter 0 then [StopEvent.putQUIT] else []
      let stops := st.io_threads.map (fun t => StopEvent.requestStop t.tid)
      let pre := closes ++ quits ++ stops
      if join = false then (pre, Except.ok st)
      else
        let j := ThreadPool.stopJoinPhase (st.io_threads ++ [et]) timeout
        match j.2 with
        | some e => (pre ++ j.1, Except.error e)
        | none =>
            (pre ++ j.1,
              Except.ok { st with io_threads := [], event_thread := none })

/-- `ThreadPool.loop_iteration` (threads.py lines 309-315): a bounded
`get(True, timeout)` on the failure queue; `Queue.Empty` returns
normally with nothing changed, and a drained `(thread, exc_info)`
record re-raises the captured exception with its original type.  The
queue is modelled as the list of records pending at the moment the
bounded wait resolves; the first result component is the bound passed
to the queue `get`. -/
def ThreadPool.loop_iteration {ε : Type} (timeout : ℚ) (q : List (ℕ × ε)) :
    ℚ × List (ℕ × ε) × Except ε Unit :=
  match q with
  | [] => (timeout, q, Except.ok ())
  | r :: rest => (timeout, rest, Except.error r.2)

/-- C1: the claim says the write-readiness branch of the writer duty
invokes only `handle_write` and never `handle_read`.  The code
(threads.py line 172) calls `handle_read()` inside the write-readiness
branch, before `handle_write()`: evaluated on a writable, truthy
handler whose select reports writability, the iteration's call trace
contains `handle_read`. -/
theorem c1_writer_branch_calls_handle_read :
    (WrittingThread.runIter
        ⟨true, true, true, true⟩).2 =
      [WriterAction.selectWrite 1, WriterAction.handle_read,
        WriterAction.handle_write] := by
  rfl

/-- C2: the claim says `stop(join=True, timeout=None)` joins every duty
thread without a bound and does not raise.  On a started pool (one
registered handler, its reader and writer threads, and the dispatcher
thread, all already terminated), the code instead raises `TypeError`:
line 282 calls `thread.join()` with no argument while `IOThread.join`
and `EventDispatcherThread.join` both declare a required `timeout`
parameter. -/
theorem c2_stop_join_none_raises_type_error :
    (ThreadPool.stop
        ⟨[7],
          [⟨1, IOThread.joinSig, some 0⟩, ⟨2, IOThread.joinSig, some 0⟩],
          some ⟨3, EventDispatcherThread.joinSig, some 0⟩⟩
        true none).2 = Except.error PyError.typeError := by
  rfl

/-- C4: a duty function raising any error `e` is caught by the thread
body (`IOThread._run`, `EventDispatcherThread.run`): the error is
recorded in the captured-failure slot, exactly one `(identity, error)`
record is posted when a failure queue was supplied and none otherwise,
and the wrapper returns normally (it is a total function into the
slot/record pair, so `e` never propagates). -/
theorem c4_thread_body_captures_failure {ε : Type} (tid : ℕ) (e : ε) :
    IOThread.runWrapper tid (Except.error e) true = (some e, [(tid, e)]) ∧
    IOThread.runWrapper tid (Except.error e) false = (some e, []) ∧
    EventDispatcherThread.runWrapper tid (Except.error e) true =
      (some e, [(tid, e)]) ∧
    EventDispatcherThread.runWrapper tid (Except.error e) false =
      (some e, []) := by
  exact ⟨rfl, rfl, rfl, rfl⟩

/-- C6: `loop_iteration(timeout)` polls the failure queue with the
bounded wait `timeout`; when the queue yields nothing it returns
normally with the queue unchanged, and when it yields a record it
re-raises exactly the captured error (hence with its original type). -/
theorem c6_loop_iteration_drains_or_reraises {ε : Type} (t : ℚ)
    (q : List (ℕ × ε)) :
    (ThreadPool.loop_iteration t q).1 = t ∧
    (q = [] → ThreadPool.loop_iteration t q = (t, [], Except.ok ())) ∧
    (∀ tid e rest, q = (tid, e) :: rest →
      ThreadPool.loop_iteration t q = (t, rest, Except.error e)) := by
  refine ⟨?_, ?_, ?_⟩
  · cases q <;> rfl
  · intro h; subst h; rfl
  · intro tid e rest h; subst h; rfl

/-- C6 witness: at `timeout = 1/2` with the empty queue and with a
one-record queue over `ε = ℕ`. -/
theorem c6_loop_iteration_drains_or_reraises_witness :
    ThreadPool.loop_iteration (1/2) ([] : List (ℕ × ℕ)) =
      (1/2, [], Except.ok ()) ∧
    ThreadPool.loop_iteration (1/2) ([(4, 9)] : List (ℕ × ℕ)) =
      (1/2, [], Except.error 9) := by
  exact ⟨(c6_loop_iteration_drains_or_reraises (1/2) []).2.1 rfl,
    (c6_loop_iteration_drains_or_reraises (1/2) [(4, 9)]).2.2 4 9 [] rfl⟩

/-- The polling block hands back whatever state the preparation block
produced. -/
lemma pollPhase_state (s1 : ReaderState) (inp : ReaderInputs) :
    ((ReadingThread.pollPhase s1 inp).1).state = s1 := by
  cases hf : inp.fileno <;> cases hr : inp.is_readable <;>
    cases hw : inp.waitResult <;> cases hsel : inp.selectReadable <;>
    simp [ReadingThread.pollPhase, hf, hr, hw, hsel, IterOutcome.state] <;>
    split_ifs <;> simp [IterOutcome.state]

/-- The polling block never raises. -/
lemma pollPhase_not_raise (s1 : ReaderState) (inp : ReaderInputs) :
    ((ReadingThread.pollPhase s1 inp).1).isRaise = false := by
  cases hf : inp.fileno <;> cases hr : inp.is_readable <;>
    cases hw : inp.waitResult <;> cases hsel : inp.selectReadable <;>
    simp [ReadingThread.pollPhase, hf, hr, hw, hsel, IterOutcome.isRaise] <;>
    split_ifs <;> simp [IterOutcome.isRaise]

/-- A successful preparation block emits at most the `prepare()` call. -/
lemma preparePhase_acts (s : ReaderState) (ret : PrepareResult)
    (s1 : ReaderState) (acts : List ReaderAction)
    (h : ReadingThread.preparePhase s ret = Except.ok (s1, acts)) :
    acts = [] ∨ acts = [ReaderAction.callPrepare] := by
  unfold ReadingThread.preparePhase at h
  split at h
  · simp only [Except.ok.injEq, Prod.mk.injEq] at h
    exact Or.inl h.2.symm
  · cases ret <;> simp only [Except.ok.injEq, Prod.mk.injEq,
      reduceCtorEq] at h
    · exact Or.inr h.2.symm
    · exact Or.inr h.2.symm

/-- When the preparation block succeeds, the iteration carries its
state and does not raise. -/
lemma runIter_ok (s : ReaderState) (inp : ReaderInputs)
    (s1 : ReaderState) (acts : List ReaderAction)
    (h : ReadingThread.preparePhase s inp.prepareRet = Except.ok (s1, acts)) :
    ((ReadingThread.runIter s inp).1).state = s1 ∧
    ((ReadingThread.runIter s inp).1).isRaise = false ∧
    (ReadingThread.runIter s inp).2 =
      acts ++ (ReadingThread.pollPhase s1 inp).2 := by
  unfold ReadingThread.runIter
  rw [h]
  exact ⟨pollPhase_state s1 inp, pollPhase_not_raise s1 inp, rfl⟩

/-- C5: in the reader preparation loop, starting unprepared: a
`HandlerReady` result from `prepare()` marks the duty prepared (and
does not raise); a `PrepareAgain(t)` with `t` present keeps it
unprepared and installs `t` as the remembered poll delay; any other
result raises `TypeError`, which the `IOThread._run` wrapper captures
as the thread's failure record; and the delay starts at 0.1 s. -/
theorem c5_reader_preparation (s : ReaderState) (inp : ReaderInputs)
    (hs : s.prepared = false) :
    ReadingThread.initState.timeout = 1/10 ∧
    (inp.prepareRet = PrepareResult.handlerReady →
      ((ReadingThread.runIter s inp).1).state = { s with prepared := true } ∧
      ((ReadingThread.runIter s inp).1).isRaise = false) ∧
    (∀ t : ℚ, inp.prepareRet = PrepareResult.prepareAgain (some t) →
      ((ReadingThread.runIter s inp).1).state = { s with timeout := t } ∧
      ((ReadingThread.runIter s inp).1).isRaise = false) ∧
    (inp.prepareRet = PrepareResult.otherValue →
      (ReadingThread.runIter s inp).1 = IterOutcome.raiseTypeError s ∧
      ∀ tid : ℕ,
        IOThread.runWrapper tid (Except.error PyError.typeError) true =
          (some PyError.typeError, [(tid, PyError.typeError)])) := by
  refine ⟨rfl, ?_, ?_, ?_⟩
  · intro hp
    have h : ReadingThread.preparePhase s inp.prepareRet =
        Except.ok ({ s with prepared := true }, [ReaderAction.callPrepare]) := by
      simp [ReadingThread.preparePhase, hs, hp]
    exact ⟨(runIter_ok s inp _ _ h).1, (runIter_ok s inp _ _ h).2.1⟩
  · intro t hp
    have h : ReadingThread.preparePhase s inp.prepareRet =
        Except.ok ({ s with timeout := t }, [ReaderAction.callPrepare]) := by
      simp [ReadingThread.preparePhase, hs, hp, Option.getD]
    exact ⟨(runIter_ok s inp _ _ h).1, (runIter_ok s inp _ _ h).2.1⟩
  · intro hp
    refine ⟨?_, fun tid => rfl⟩
    unfold ReadingThread.runIter
    simp [ReadingThread.preparePhase, hs, hp]

/-- C5 witness: at the initial state with a `PrepareAgain (some 1/4)`
response on an unreadable handler. -/
theorem c5_reader_preparation_witness :
    ((ReadingThread.runIter ReadingThread.initState
        ⟨PrepareResult.prepareAgain (some (1/4)), false, none, false,
          true⟩).1).state =
      { ReadingThread.initState with timeout := 1/4 } := by
  exact ((c5_reader_preparation ReadingThread.initState
      ⟨PrepareResult.prepareAgain (some (1/4)), false, none, false, true⟩
      rfl).2.2.1 (1/4) rfl).1

/-- C9: a `PrepareAgain` result whose `timeout` attribute is `None`
leaves the loop state unchanged (in particular the remembered poll
delay), and, when the handler is not readable and the delay is
non-zero, the iteration sleeps that previously remembered delay. -/
theorem c9_prepare_again_none_keeps_delay (s : ReaderState)
    (inp : ReaderInputs) (hs : s.prepared = false)
    (hp : inp.prepareRet = PrepareResult.prepareAgain none) :
    ((ReadingThread.runIter s inp).1).state = s ∧
    (inp.is_readable = false → s.timeout ≠ 0 →
      ReaderAction.sleep s.timeout ∈ (ReadingThread.runIter s inp).2) := by
  have h : ReadingThread.preparePhase s inp.prepareRet =
      Except.ok (s, [ReaderAction.callPrepare]) := by
    simp [ReadingThread.preparePhase, hs, hp, Option.getD]
    obtain ⟨sp, st⟩ := s
    simp_all
  refine ⟨(runIter_ok s inp _ _ h).1, fun hr ht => ?_⟩
  rw [(runIter_ok s inp _ _ h).2.2]
  simp [ReadingThread.pollPhase, hr, hs, ht]

/-- C9 witness: state with remembered delay 1/5, `PrepareAgain None`
response, handler not readable. -/
theorem c9_prepare_again_none_keeps_delay_witness :
    ((ReadingThread.runIter ⟨false, 1/5⟩
        ⟨PrepareResult.prepareAgain none, false, none, false, true⟩).1).state =
      ⟨false, 1/5⟩ ∧
    ReaderAction.sleep (1/5) ∈
      (ReadingThread.runIter ⟨false, 1/5⟩
        ⟨PrepareResult.prepareAgain none, false, none, false, true⟩).2 := by
  have h := c9_prepare_again_none_keeps_delay ⟨false, 1/5⟩
    ⟨PrepareResult.prepareAgain none, false, none, false, true⟩ rfl rfl
  exact ⟨h.1, h.2 rfl (by norm_num)⟩

/-- C10: when the handler reports read-readiness but `fileno()` is
`None`, the iteration performs no bounded select, no `handle_read`, no
sleep and no readability wait: every call it makes (at most the
`prepare()` call) is `callPrepare`, and in particular `handle_read` is
never invoked. -/
theorem c10_readable_without_fileno (s : ReaderState) (inp : ReaderInputs)
    (hr : inp.is_readable = true) (hf : inp.fileno = none) :
    (∀ a ∈ (ReadingThread.runIter s inp).2, a = ReaderAction.callPrepare) ∧
    ReaderAction.handle_read ∉ (ReadingThread.runIter s inp).2 := by
  have hacts : ∀ a ∈ (ReadingThread.runIter s inp).2,
      a = ReaderAction.callPrepare := by
    cases h : ReadingThread.preparePhase s inp.prepareRet with
    | error e =>
        unfold ReadingThread.runIter
        rw [h]
        intro a ha
        exact List.mem_singleton.mp ha
    | ok pr =>
        obtain ⟨s1, acts⟩ := pr
        intro a ha
        rw [(runIter_ok s inp s1 acts h).2.2] at ha
        have hpp : ReadingThread.pollPhase s1 inp =
            (IterOutcome.continueLoop s1, []) := by
          simp [ReadingThread.pollPhase, hr, hf]
        rw [hpp] at ha
        rcases preparePhase_acts s inp.prepareRet s1 acts h with he | he
        · subst he
          simp at ha
        · subst he
          simp at ha
          exact ha
  refine ⟨hacts, fun hmem => ?_⟩
  have := hacts _ hmem
  simp at this

/-- C10 witness: prepared state, readable handler with `fileno()`
returning `None`. -/
theorem c10_readable_without_fileno_witness :
    (∀ a ∈ (ReadingThread.runIter ⟨true, 1/10⟩
        ⟨PrepareResult.handlerReady, true, none, true, true⟩).2,
      a = ReaderAction.callPrepare) ∧
    ReaderAction.handle_read ∉
      (ReadingThread.runIter ⟨true, 1/10⟩
        ⟨PrepareResult.handlerReady, true, none, true, true⟩).2 := by
  exact c10_readable_without_fileno ⟨true, 1/10⟩
    ⟨PrepareResult.handlerReady, true, none, true, true⟩ rfl rfl

/-- When every call in a join sequence matches its thread's `join`
arity, the sequence performs exactly the requested calls and raises
nothing. -/
lemma joinSeq_all_accept (ps : List (WThread × List ℚ))
    (h : ∀ p ∈ ps, p.1.joinSig.accepts p.2.length = true) :
    joinSeq ps =
      (ps.map (fun p => StopEvent.joinCall p.1.tid p.2), none) := by
  induction ps with
  | nil => rfl
  | cons p rest ih =>
      have hp := h p (List.mem_cons_self p rest)
      have hrest : ∀ q ∈ rest, q.1.joinSig.accepts q.2.length = true :=
        fun q hq => h q (List.mem_cons_of_mem p hq)
      simp [joinSeq, hp, ih hrest]

/-- Every event a join sequence emits is a join call. -/
lemma joinSeq_events_join (ps : List (WThread × List ℚ)) :
    ∀ e ∈ (joinSeq ps).1, e.isJoin = true := by
  induction ps with
  | nil =>
      intro e he
      simp [joinSeq] at he
  | cons p rest ih =>
      intro e he
      obtain ⟨t, args⟩ := p
      by_cases hp : t.joinSig.accepts args.length = true
      · simp [joinSeq, hp] at he
        rcases he with rfl | h2
        · rfl
        · exact ih e h2
      · simp [joinSeq, hp] at he
        subst he
        rfl

/-- Join calls are not `close()` calls. -/
lemma isJoin_not_isClose (e : StopEvent) (h : e.isJoin = true) :
    e.isClose = false := by
  cases e <;> simp_all [StopEvent.isJoin, StopEvent.isClose]


/-- Every event the join phase emits is a join call. -/
lemma stopJoinPhase_events_join (threads : List WThread)
    (timeout : Option ℚ) :
    ∀ e ∈ (ThreadPool.stopJoinPhase threads timeout).1, e.isJoin = true := by
  cases timeout with
  | none => exact joinSeq_events_join _
  | some tmo =>
      intro e he
      simp only [ThreadPool.stopJoinPhase] at he
      cases h1 : (joinSeq (threads.map (fun t =>
          (t, [tmo * (1/100) / (threads.length : ℚ)])))).2 with
      | some err =>
          rw [h1] at he
          exact joinSeq_events_join _ e he
      | none =>
          rw [h1] at he
          by_cases hleft : (threads.filter (fun t =>
              t.aliveAfter (tmo * (1/100) / (threads.length : ℚ)))).isEmpty = true
          · simp only [hleft, if_true] at he
            exact joinSeq_events_join _ e he
          · simp only [hleft, Bool.false_eq_true, if_false] at he
            rcases List.mem_append.mp he with h2 | h3
            · exact joinSeq_events_join _ e h2
            · exact joinSeq_events_join _ e h3

/-- The QUIT/stop-request/join tail of a stop trace contains no
`close()` event. -/
lemma stop_tail_no_close (st : PoolState) (et : WThread)
    (tail : List StopEvent) (htail : ∀ e ∈ tail, e.isClose = false) :
    ∀ e ∈ ((if et.aliveAfter 0 then [StopEvent.putQUIT] else []) ++
        (st.io_threads.map (fun t => StopEvent.requestStop t.tid) ++ tail)),
      e.isClose = false := by
  intro e he
  rcases List.mem_append.mp he with h1 | h2
  · by_cases ha : et.aliveAfter 0 = true
    · simp [ha] at h1
      subst h1
      rfl
    · simp [ha] at h1
  · rcases List.mem_append.mp h2 with hs | ht
    · obtain ⟨t, _, rfl⟩ := List.mem_map.mp hs
      rfl
    · exact htail e ht

/-- On a started pool, the trace of `stop` with `join = True` is the
closes, then the QUIT signalling, then the stop requests, then the join
phase, whether or not the join phase raises. -/
lemma stop_join_true_trace (st : PoolState) (et : WThread)
    (timeout : Option ℚ) (hev : st.event_thread = some et) :
    (ThreadPool.stop st true timeout).1 =
      st.io_handlers.map StopEvent.closeHandler ++
        ((if et.aliveAfter 0 then [StopEvent.putQUIT] else []) ++
          (st.io_threads.map (fun t => StopEvent.requestStop t.tid) ++
            (ThreadPool.stopJoinPhase (st.io_threads ++ [et]) timeout).1)) := by
  simp only [ThreadPool.stop, hev]
  cases h : (ThreadPool.stopJoinPhase (st.io_threads ++ [et]) timeout).2 <;>
    simp [h, List.append_assoc]

/-- On a started pool, when the join phase raises nothing, `stop` with
`join = True` clears the duty-thread list and the dispatcher
reference. -/
lemma stop_join_true_state (st : PoolState) (et : WThread)
    (timeout : Option ℚ) (hev : st.event_thread = some et)
    (hok : (ThreadPool.stopJoinPhase (st.io_threads ++ [et]) timeout).2 =
      none) :
    (ThreadPool.stop st true timeout).2 =
      Except.ok { st with io_threads := [], event_thread := none } := by
  simp only [ThreadPool.stop, hev]
  simp [hok]

/-- C7: on a started pool (dispatcher reference present), `stop` first
closes every registered capability — the trace starts with exactly one
`close()` per registered handler, in registration order — and no later
event (QUIT signalling, stop requests, joins) is a close, for both
values of `join` and any timeout. -/
theorem c7_stop_closes_each_handler_first (st : PoolState) (et : WThread)
    (join : Bool) (timeout : Option ℚ) (hev : st.event_thread = some et) :
    ∃ rest, (ThreadPool.stop st join timeout).1 =
        st.io_handlers.map StopEvent.closeHandler ++ rest ∧
      ∀ e ∈ rest, e.isClose = false := by
  cases join with
  | false =>
      refine ⟨(if et.aliveAfter 0 then [StopEvent.putQUIT] else []) ++
        (st.io_threads.map (fun t => StopEvent.requestStop t.tid) ++ []),
        ?_, ?_⟩
      · simp [ThreadPool.stop, hev, List.append_assoc]
      · exact stop_tail_no_close st et [] (by intro e he; simp at he)
  | true =>
      refine ⟨(if et.aliveAfter 0 then [StopEvent.putQUIT] else []) ++
        (st.io_threads.map (fun t => StopEvent.requestStop t.tid) ++
          (ThreadPool.stopJoinPhase (st.io_threads ++ [et]) timeout).1),
        ?_, ?_⟩
      · exact stop_join_true_trace st et timeout hev
      · exact stop_tail_no_close st et _
          (fun e he => isJoin_not_isClose e
            (stopJoinPhase_events_join _ timeout e he))

/-- Spec-side description of the two-phase timed join, following the
spec's words (§4.5): phase 1 allots 1% of the budget split evenly
across all threads; any thread still alive after its phase-1 budget
enters phase 2, which allots the remaining 99% split evenly across
just the stragglers.  Compared below with the join phase translated
from the source. -/
def specTwoPhaseJoinCalls (threads : List WThread) (tmo : ℚ) :
    List StopEvent :=
  let budget1 := tmo * (1/100) / (threads.length : ℚ)
  let stragglers := threads.filter (fun t => t.aliveAfter budget1)
  let budget2 := tmo * (99/100) / (stragglers.length : ℚ)
  threads.map (fun t => StopEvent.joinCall t.tid [budget1]) ++
    (if stragglers.isEmpty then []
      else stragglers.map (fun t => StopEvent.joinCall t.tid [budget2]))

/-- When every thread's `join` method has the one-required-argument
signature of the source classes, the timed join phase of the source
raises nothing and performs exactly the spec's two-phase join calls. -/
lemma stopJoinPhase_timed (threads : List WThread) (tmo : ℚ)
    (hsig : ∀ t ∈ threads, t.joinSig = IOThread.joinSig) :
    ThreadPool.stopJoinPhase threads (some tmo) =
      (specTwoPhaseJoinCalls threads tmo, none) := by
  have hacc : ∀ (b : ℚ) (ts : List WThread),
      (∀ t ∈ ts, t.joinSig = IOThread.joinSig) →
      ∀ p ∈ ts.map (fun t => (t, [b])),
        p.1.joinSig.accepts p.2.length = true := by
    intro b ts hts p hp
    obtain ⟨t, ht, rfl⟩ := List.mem_map.mp hp
    simp [hts t ht, IOThread.joinSig, PySig.accepts]
  have h1 := joinSeq_all_accept (threads.map (fun t =>
      (t, [tmo * (1/100) / (threads.length : ℚ)]))) (hacc _ _ hsig)
  simp only [ThreadPool.stopJoinPhase, specTwoPhaseJoinCalls, h1,
    List.map_map]
  by_cases hleft : (threads.filter (fun t =>
      t.aliveAfter (tmo * (1/100) / (threads.length : ℚ)))).isEmpty = true
  · rw [if_pos hleft, if_pos hleft]
    simp [Function.comp]
  · rw [if_neg hleft, if_neg hleft]
    have hsig2 : ∀ t ∈ threads.filter (fun t =>
        t.aliveAfter (tmo * (1/100) / (threads.length : ℚ))),
        t.joinSig = IOThread.joinSig :=
      fun t ht => hsig t (List.mem_of_mem_filter ht)
    have h2 := joinSeq_all_accept ((threads.filter (fun t =>
        t.aliveAfter (tmo * (1/100) / (threads.length : ℚ)))).map
        (fun t => (t, [tmo * (99/100) /
          (((threads.filter (fun t => t.aliveAfter (tmo * (1/100) /
            (threads.length : ℚ)))).length : ℚ))]))) (hacc _ _ hsig2)
    rw [h2]
    simp [Function.comp_def]

/-- C3: on a started pool with a finite timeout `tmo` and the source
classes' `join` signatures, `stop(join=True, timeout=tmo)` performs the
spec's two-phase join — one phase-1 join per thread (io threads plus
dispatcher) with budget `(tmo * 0.01) / len(threads)`, then a phase-2
join present exactly when stragglers survive phase 1, giving each
straggler `(tmo * 0.99) / len(threads_left)` — and afterwards clears
the duty-thread list and the dispatcher reference regardless of which
threads actually terminated. -/
theorem c3_two_phase_timed_join (st : PoolState) (et : WThread) (tmo : ℚ)
    (hev : st.event_thread = some et)
    (hsig : ∀ t ∈ st.io_threads ++ [et], t.joinSig = IOThread.joinSig) :
    (ThreadPool.stop st true (some tmo)).1 =
      st.io_handlers.map StopEvent.closeHandler ++
        ((if et.aliveAfter 0 then [StopEvent.putQUIT] else []) ++
          (st.io_threads.map (fun t => StopEvent.requestStop t.tid) ++
            specTwoPhaseJoinCalls (st.io_threads ++ [et]) tmo)) ∧
    (ThreadPool.stop st true (some tmo)).2 =
      Except.ok { st with io_threads := [], event_thread := none } := by
  have hj := stopJoinPhase_timed (st.io_threads ++ [et]) tmo hsig
  refine ⟨?_, stop_join_true_state st et (some tmo) hev (by rw [hj])⟩
  rw [stop_join_true_trace st et (some tmo) hev, hj]

/-- The dispatcher thread of the sample pool: exits immediately once
stop is requested. -/
def sampleDispatcher : WThread :=
  { tid := 3, joinSig := EventDispatcherThread.joinSig, term := some 0 }

/-- A started pool used to evaluate the stop model: one registered
handler, a reader thread that exits immediately, a writer thread that
never exits, and the sample dispatcher. -/
def samplePool : PoolState :=
  { io_handlers := [7],
    io_threads := [{ tid := 1, joinSig := IOThread.joinSig, term := some 0 },
                   { tid := 2, joinSig := IOThread.joinSig, term := none }],
    event_thread := some sampleDispatcher }

/-- C3 witness: on the sample pool with timeout 2 the join phase raises
nothing and the pool is cleared. -/
theorem c3_two_phase_timed_join_witness :
    (ThreadPool.stop samplePool true (some 2)).2 =
      Except.ok { samplePool with io_threads := [], event_thread := none } := by
  exact (c3_two_phase_timed_join samplePool sampleDispatcher 2 rfl
    (by decide)).2

/-- C7 witness: on the sample pool with `join = True` and timeout 1. -/
theorem c7_stop_closes_each_handler_first_witness :
    ∃ rest, (ThreadPool.stop samplePool true (some 1)).1 =
        samplePool.io_handlers.map StopEvent.closeHandler ++ rest ∧
      ∀ e ∈ rest, e.isClose = false := by
  exact c7_stop_closes_each_handler_first samplePool sampleDispatcher
    true (some 1) rfl

/-- C8: calling `stop` when the dispatcher reference is `None` (before
any `start()`, or after a completed joining stop set it to `None`) is
not total: after closing the registered handlers, the
`self.event_thread.is_alive()` check raises `AttributeError` instead of
the QUIT step being skipped, for both values of `join` and any
timeout. -/
theorem c8_stop_without_dispatcher_raises (st : PoolState) (join : Bool)
    (timeout : Option ℚ) (hev : st.event_thread = none) :
    ThreadPool.stop st join timeout =
      (st.io_handlers.map StopEvent.closeHandler,
        Except.error PyError.attributeError) := by
  simp [ThreadPool.stop, hev]

/-- C8 witness: a never-started pool with one registered handler. -/
theorem c8_stop_without_dispatcher_raises_witness :
    ThreadPool.stop ⟨[5], [], none⟩ false none =
      ([StopEvent.closeHandler 5], Except.error PyError.attributeError) := by
  exact c8_stop_without_dispatcher_raises ⟨[5], [], none⟩ false none rfl

end PyXmpp
